import Mathlib

/-!
Verification of the BayesianOptimization notebook against its specification.

The repository is a notebook with two cells: a bayes_opt sequential-maximizer
cell (with a recorded 12-row run and its best record) and a checkpoint skopt
cell whose recorded execution raises a ValueError from the use_named_args
decorator.  Numeric values are embedded as exact rationals (reals where
trigonometric functions are needed); the external optimizers are modelled
from the spec's consumed-interface contracts, the notebook's own code and its
recorded outputs from the source.
-/

/-! ## The Library B (bayes_opt) cell: objective, bounds, recorded run -/

/-- The objective of the bayes_opt cell, from the source:
`def objective_function(x, y): return -(x**2 + y**2)`. -/
def objective_function (x y : ℚ) : ℚ := -(x ^ 2 + y ^ 2)

/-- Written from the spec's words: the objective `f(x, y) = -(x² + y²)`,
to be compared with the source definition. -/
def specObjectiveFormula (x y : ℚ) : ℚ := -(x ^ 2 + y ^ 2)

/-- The search space of the bayes_opt cell, from the source:
`pbounds = {'x': (-10, 10), 'y': (-10, 10)}`, as (name, low, high) entries. -/
def pbounds : List (String × ℚ × ℚ) := [("x", (-10, 10)), ("y", (-10, 10))]

/-- The bounds of the checkpoint skopt cell, from the source:
`('x', Real(-10, 10))` and `('y', Real(-10, 10))`, as (name, low, high). -/
def skoptRealBounds : List (String × ℚ × ℚ) := [("x", (-10, 10)), ("y", (-10, 10))]

/-- The pbounds of the bayes_opt cell as explicit per-coordinate bounds. -/
structure BoundsXY where
  xLow : ℚ
  xHigh : ℚ
  yLow : ℚ
  yHigh : ℚ
deriving DecidableEq

/-- The concrete bounds of the source cell: x, y both in [-10, 10]. -/
def pboundsXY : BoundsXY := ⟨-10, 10, -10, 10⟩

/-- An evaluation record: one (input point, objective value) pair, one per
query of the objective, as in the printed iteration table. -/
structure EvalRecord where
  x : ℚ
  y : ℚ
  target : ℚ
deriving DecidableEq

/-- The best record printed by the source cell (`print(optimizer.max)`):
`{'target': -2.4923888767972917, 'params': {'x': 0.9199895185372754, 'y': -1.2829684963313963}}`. -/
def recordedBest : EvalRecord :=
  ⟨0.9199895185372754, -1.2829684963313963, -2.4923888767972917⟩

/-- The twelve per-iteration target values of the recorded run, exactly as
printed in the iteration table (the display rounds to four significant
figures). -/
def displayedTargets : List ℚ :=
  [-87.55, -25.42, -26.44, -2.492, -49.12, -6.546,
   -101.0, -200.0, -200.0, -200.0, -200.0, -10.71]

/-- The printed target of row i of the recorded table (rows numbered 0-11). -/
def displayedTarget (i : Fin 12) : ℚ := displayedTargets.getD i.val 0

/-! ## Modelled from the spec: the Library B sequential maximizer.

The maximizer itself is the external bayes_opt library, absent from the
source.  The spec's Library B contract: it takes an objective callable, named
(low, high) bounds, an initial random-exploration count `init_points`, an
optimization-iteration count `n_iter`, and a random seed; every choice it
makes is a deterministic function of the seed and of the evaluation history
(an acquisition step), so the internal next-point selector is a parameter
`select` below; it emits one evaluation record per query and returns the
record with the maximal objective value. -/

/-- Modelled from the spec: a deterministic pseudo-random step, standing for
the library's seed-driven random number generator. -/
def lcg (s : Nat) : Nat := (1103515245 * s + 12345) % 2 ^ 31

/-- Modelled from the spec: map a generator state into the interval
[low, high]. -/
def sampleIn (low high : ℚ) (s : Nat) : ℚ :=
  low + (((s % 2 ^ 31 : Nat) : ℚ) / 2 ^ 31) * (high - low)

/-- Modelled from the spec: the initial random-exploration phase; `n` random
points inside the bounds, each evaluated once, threading the generator
state. -/
def initPhase (f : ℚ → ℚ → ℚ) (b : BoundsXY) (seed : Nat) :
    Nat → List EvalRecord × Nat
  | 0 => ([], seed)
  | n + 1 =>
    let p := initPhase f b seed n
    let s1 := lcg p.2
    let s2 := lcg s1
    let px := sampleIn b.xLow b.xHigh s1
    let py := sampleIn b.yLow b.yHigh s2
    (p.1 ++ [⟨px, py, f px py⟩], s2)

/-- Modelled from the spec: the acquisition-driven phase; each of the `n`
iterations asks the selector for the next point as a deterministic function
of the history and appends its evaluation record. -/
def acqPhase (select : List EvalRecord → ℚ × ℚ) (f : ℚ → ℚ → ℚ) :
    List EvalRecord → Nat → List EvalRecord
  | recs, 0 => recs
  | recs, n + 1 =>
    let p := select recs
    acqPhase select f (recs ++ [⟨p.1, p.2, f p.1 p.2⟩]) n

/-- Modelled from the spec: the full sequence of evaluation records produced
by one run of the sequential maximizer (one record per printed row). -/
def runRecords (select : List EvalRecord → ℚ × ℚ) (f : ℚ → ℚ → ℚ)
    (b : BoundsXY) (initPoints nIter seed : Nat) : List EvalRecord :=
  acqPhase select f (initPhase f b seed initPoints).1 nIter

/-- The record with the larger target; ties keep the earlier record, as
numpy argmax keeps the first maximum. -/
def betterOf (a b : EvalRecord) : EvalRecord :=
  if a.target < b.target then b else a

/-- Modelled from the spec: `optimizer.max`, the record the maximizer
reports, computed from the run's evaluation history. -/
def optimizerMax (select : List EvalRecord → ℚ × ℚ) (f : ℚ → ℚ → ℚ)
    (b : BoundsXY) (initPoints nIter seed : Nat) : Option EvalRecord :=
  match runRecords select f b initPoints nIter seed with
  | [] => none
  | r :: rs => some (rs.foldl betterOf r)

/-- A fixed next-point selector used to instantiate the model at concrete
inputs. -/
def constSelect : List EvalRecord → ℚ × ℚ := fun _ => (0, 0)

/-! ## Effectful embedding of the objective for the purity claim.

The source body of `objective_function` only computes on its two arguments
and returns; it reads and writes no other program state, so its embedding as
a state-passing computation leaves any state untouched. -/

/-- One evaluation of the objective as a state-passing computation over an
arbitrary program-state type. -/
def evalObjectiveSt {S : Type} (s : S) (x y : ℚ) : ℚ × S :=
  (objective_function x y, s)

/-- A sequence of objective evaluations, threading the program state through
every call in order. -/
def evalCalls {S : Type} : List (ℚ × ℚ) → S → List ℚ × S
  | [], s => ([], s)
  | c :: cs, s =>
    let p := evalObjectiveSt s c.1 c.2
    let q := evalCalls cs p.2
    (p.1 :: q.1, q.2)

/-! ## The Library A (skopt) checkpoint cell.

The cell's recorded traceback shows `use_named_args` calling
`check_list_types(dimensions, Dimension)`, which raises a ValueError because
the supplied list holds plain `('name', Real(...))` tuples, not Dimension
instances.  The cell then (were it reached) builds `Space([...])`, but the
name `Space` is never imported in the cell, and only then would it call
`gp_minimize`. -/

/-- An element of a candidate skopt search-space list: either a genuine
`Real(low, high)` dimension instance, or a plain `(name, Real(low, high))`
tuple as the source writes. -/
inductive SkoptSpaceElem
  | realDim (low high : ℚ)
  | namedTuple (name : String) (low high : ℚ)
deriving DecidableEq

/-- Whether an element is an instance of skopt's Dimension class: a tuple is
not, whatever it contains. -/
def isDimensionInstance : SkoptSpaceElem → Bool
  | .realDim _ _ => true
  | .namedTuple _ _ _ => false

/-- The Python errors the cell can raise. -/
inductive PyError
  | valueError (msg : String)
  | nameError (name : String)
deriving DecidableEq

/-- The message of the recorded ValueError, abridged. -/
def dimTypeErrorMsg : String :=
  "All elements in list must be instances of Dimension"

/-- From the recorded traceback: skopt's `check_list_types`, which raises
ValueError unless every element is a Dimension instance. -/
def check_list_types (xs : List SkoptSpaceElem) : Except PyError Unit :=
  if xs.all isDimensionInstance then .ok () else .error (.valueError dimTypeErrorMsg)

/-- From the recorded traceback: the type validation the `use_named_args`
decorator performs on its dimensions at function-definition time. -/
def use_named_args_check (dims : List SkoptSpaceElem) : Except PyError Unit :=
  check_list_types dims

/-- The dimensions the source passes to the decorator:
`[('x', Real(-10, 10)), ('y', Real(-10, 10))]` - plain tuples. -/
def decoratorDims : List SkoptSpaceElem :=
  [.namedTuple "x" (-10) 10, .namedTuple "y" (-10) 10]

/-- The same bounds as genuine Dimension instances, as the commented-out fix
in the source would supply them. -/
def typedDims : List SkoptSpaceElem :=
  [.realDim (-10) 10, .realDim (-10) 10]

/-- The names the skopt cell's import statements bind:
`gp_minimize`, `Real`, `use_named_args`, `np`, `plt`. -/
def cellImports : List String :=
  ["gp_minimize", "Real", "use_named_args", "np", "plt"]

/-- Python name resolution in the cell: a NameError for any name the imports
did not bind. -/
def lookupGlobal (n : String) : Except PyError Unit :=
  if cellImports.contains n then .ok () else .error (.nameError n)

/-- The skopt cell in execution order, parametrized by the dimensions given
to the decorator: the decorator's type check runs at function-definition
time, then `space = Space([...])` resolves the name `Space`, and only then
is `gp_minimize` invoked (the returned marker). -/
def runSkoptCellWith (dims : List SkoptSpaceElem) : Except PyError String :=
  match use_named_args_check dims with
  | .error e => .error e
  | .ok _ =>
    match lookupGlobal "Space" with
    | .error e => .error e
    | .ok _ => .ok "gp_minimize"

/-- The skopt cell exactly as written, with the tuple dimensions. -/
def runSkoptCell : Except PyError String := runSkoptCellWith decoratorDims

/-- The skopt cell with the decorator's dimensions repaired to typed
Dimension instances. -/
def runSkoptCellTyped : Except PyError String := runSkoptCellWith typedDims

/-- The objective of the skopt cell, from the source:
`return np.sin(x) + np.cos(y)`. -/
noncomputable def objective_function_skopt (x y : ℝ) : ℝ := Real.sin x + Real.cos y

/-! ## Helper lemmas -/

lemma initPhase_length (f : ℚ → ℚ → ℚ) (b : BoundsXY) (seed : Nat) :
    ∀ n, ((initPhase f b seed n).1).length = n := by
  intro n
  induction n with
  | zero => rfl
  | succ n ih => simp [initPhase, ih]

lemma acqPhase_length (select : List EvalRecord → ℚ × ℚ) (f : ℚ → ℚ → ℚ) :
    ∀ (n : Nat) (recs : List EvalRecord),
      (acqPhase select f recs n).length = recs.length + n := by
  intro n
  induction n with
  | zero => intro recs; rfl
  | succ n ih =>
    intro recs
    rw [acqPhase, ih]
    simp
    omega

lemma betterOf_left_le (a b : EvalRecord) : a.target ≤ (betterOf a b).target := by
  unfold betterOf
  split
  · exact le_of_lt (by assumption)
  · exact le_refl _

lemma betterOf_right_le (a b : EvalRecord) : b.target ≤ (betterOf a b).target := by
  unfold betterOf
  split
  · exact le_refl _
  · exact le_of_not_lt (by assumption)

lemma foldl_betterOf_mem :
    ∀ (l : List EvalRecord) (a : EvalRecord),
      l.foldl betterOf a = a ∨ l.foldl betterOf a ∈ l := by
  intro l
  induction l with
  | nil => intro a; left; rfl
  | cons r rs ih =>
    intro a
    rcases ih (betterOf a r) with h | h
    · rw [List.foldl_cons, h]
      unfold betterOf
      split
      · right; exact List.mem_cons_self r rs
      · left; rfl
    · right
      rw [List.foldl_cons]
      exact List.mem_cons_of_mem r h

lemma foldl_betterOf_acc_le :
    ∀ (l : List EvalRecord) (a : EvalRecord),
      a.target ≤ (l.foldl betterOf a).target := by
  intro l
  induction l with
  | nil => intro a; exact le_refl _
  | cons r rs ih =>
    intro a
    rw [List.foldl_cons]
    exact le_trans (betterOf_left_le a r) (ih (betterOf a r))

lemma foldl_betterOf_mem_le :
    ∀ (l : List EvalRecord) (a r : EvalRecord), r ∈ l →
      r.target ≤ (l.foldl betterOf a).target := by
  intro l
  induction l with
  | nil => intro a r h; cases h
  | cons q qs ih =>
    intro a r h
    rw [List.foldl_cons]
    rcases List.mem_cons.mp h with h | h
    · subst h
      exact le_trans (betterOf_right_le a r) (foldl_betterOf_acc_le qs (betterOf a r))
    · exact ih (betterOf a q) r h

lemma displayed_plus_half_le :
    ∀ i : Fin 12, i ≠ 3 → displayedTarget i + 1 / 2 ≤ recordedBest.target := by
  intro i hi
  fin_cases i <;>
    first
    | exact absurd rfl hi
    | norm_num [displayedTarget, displayedTargets, recordedBest]

lemma zero_le_half_q : (0 : ℚ) ≤ 1 / 2 := by norm_num

/-! ## Claim theorems -/

/-- C1: The best result reported by the sequential maximizer is the
evaluation record with the maximum objective value among all per-iteration
evaluation records produced during the run; and in the recorded sample run,
any true target values consistent with the printed table (exact at row 4,
within display rounding on every other row) attain their maximum at the
printed best target -2.4923888767972917. -/
theorem seqmax_best_is_max :
    (∀ (select : List EvalRecord → ℚ × ℚ) (f : ℚ → ℚ → ℚ) (b : BoundsXY)
        (ip ni seed : Nat) (best : EvalRecord),
        optimizerMax select f b ip ni seed = some best →
        best ∈ runRecords select f b ip ni seed ∧
          ∀ r ∈ runRecords select f b ip ni seed, r.target ≤ best.target)
    ∧
    (∀ targets : Fin 12 → ℚ,
        targets 3 = recordedBest.target →
        (∀ i : Fin 12, i ≠ 3 → |targets i - displayedTarget i| ≤ 1 / 2) →
        ∀ i : Fin 12, targets i ≤ recordedBest.target) := by
  constructor
  · intro select f b ip ni seed best h
    unfold optimizerMax at h
    split at h
    · exact absurd h (by simp)
    · next r rs hr =>
      injection h with h
      rw [hr]
      constructor
      · rcases foldl_betterOf_mem rs r with hm | hm
        · rw [← h, hm]; exact List.mem_cons_self r rs
        · rw [← h]; exact List.mem_cons_of_mem r hm
      · intro q hq
        rcases List.mem_cons.mp hq with hq | hq
        · rw [hq, ← h]; exact foldl_betterOf_acc_le rs r
        · rw [← h]; exact foldl_betterOf_mem_le rs r q hq
  · intro targets h3 hcons i
    by_cases h : i = 3
    · rw [h, h3]
    · have hc := (abs_le.mp (hcons i h)).2
      have hd := displayed_plus_half_le i h
      linarith

/-- Witness for C1: the single-record run at the constant selector, and the
table-consistent target assignment that matches the display exactly. -/
theorem seqmax_best_is_max_witness :
    ((⟨0, 0, objective_function 0 0⟩ : EvalRecord)
        ∈ runRecords constSelect objective_function pboundsXY 0 1 0)
    ∧ (fun i : Fin 12 => if i = 3 then recordedBest.target else displayedTarget i) 0
        ≤ recordedBest.target := by
  constructor
  · exact (seqmax_best_is_max.1 constSelect objective_function pboundsXY 0 1 0
      ⟨0, 0, objective_function 0 0⟩ rfl).1
  · exact seqmax_best_is_max.2
      (fun i : Fin 12 => if i = 3 then recordedBest.target else displayedTarget i)
      rfl
      (fun i hi => by
        simp only [if_neg hi, sub_self, abs_zero]
        exact zero_le_half_q) 0

/-- C2: With the source cell's arguments (init_points = 2, n_iter = 10,
random_state = 42), any two runs of the sequential maximizer over identical
bounds and identical objective — with the library's seed-driven random
generator and history-driven acquisition selector held identical — report
identical best-parameter and best-value output. -/
theorem seqmax_deterministic :
    ∀ (select : List EvalRecord → ℚ × ℚ) (f : ℚ → ℚ → ℚ) (b : BoundsXY)
      (r1 r2 : Option EvalRecord),
      r1 = optimizerMax select f b 2 10 42 →
      r2 = optimizerMax select f b 2 10 42 →
      r1 = r2 := by
  intro select f b r1 r2 h1 h2
  rw [h1, h2]

/-- Witness for C2 at the source cell's objective and bounds. -/
theorem seqmax_deterministic_witness :
    optimizerMax constSelect objective_function pboundsXY 2 10 42 =
      optimizerMax constSelect objective_function pboundsXY 2 10 42 :=
  seqmax_deterministic constSelect objective_function pboundsXY _ _ rfl rfl

/-- C3: The sequential maximizer produces exactly init_points + n_iter
evaluation records (one per printed iteration row); with the source's
arguments init_points = 2, n_iter = 10 that is 12 rows, and the recorded
sample table indeed has 12 rows. -/
theorem seqmax_row_count :
    (∀ (select : List EvalRecord → ℚ × ℚ) (f : ℚ → ℚ → ℚ) (b : BoundsXY)
        (ip ni seed : Nat),
        (runRecords select f b ip ni seed).length = ip + ni)
    ∧ (∀ (select : List EvalRecord → ℚ × ℚ) (f : ℚ → ℚ → ℚ) (b : BoundsXY)
        (seed : Nat),
        (runRecords select f b 2 10 seed).length = 12)
    ∧ displayedTargets.length = 12 := by
  refine ⟨fun select f b ip ni seed => ?_, fun select f b seed => ?_, rfl⟩
  · unfold runRecords
    rw [acqPhase_length, initPhase_length]
  · unfold runRecords
    rw [acqPhase_length, initPhase_length]

/-- C4: Supplying the skopt search space as plain (name, low, high) tuples
instead of Dimension instances fails with a ValueError from the library's
type validation rather than silently proceeding, and the error propagates
uncaught: the cell's run terminates with that error and never yields a
result. -/
theorem skopt_tuple_space_fails :
    runSkoptCell = Except.error (PyError.valueError dimTypeErrorMsg)
    ∧ ∀ s : String, runSkoptCell ≠ Except.ok s := by
  have h1 : runSkoptCell = Except.error (PyError.valueError dimTypeErrorMsg) := rfl
  refine ⟨h1, fun s h => ?_⟩
  rw [h1] at h
  cases h

/-- C10: The skopt cell can never successfully reach the gp_minimize call:
as written it terminates with the decorator's ValueError, and with the
decorator's dimensions repaired to typed Dimension instances it still
terminates first with a NameError because the name Space is bound by none of
the cell's imports - so no choice of decorator dimensions lets the run reach
gp_minimize. -/
theorem skopt_cell_never_reaches_gp_minimize :
    runSkoptCell = Except.error (PyError.valueError dimTypeErrorMsg)
    ∧ runSkoptCellTyped = Except.error (PyError.nameError "Space")
    ∧ cellImports.contains "Space" = false
    ∧ ∀ dims : List SkoptSpaceElem,
        runSkoptCellWith dims ≠ Except.ok "gp_minimize" := by
  refine ⟨rfl, rfl, rfl, fun dims h => ?_⟩
  unfold runSkoptCellWith at h
  split at h
  · cases h
  · split at h
    · cases h
    · next u heq =>
      have hsp : lookupGlobal "Space" = Except.error (PyError.nameError "Space") := rfl
      rw [hsp] at heq
      cases heq

/-- C5: The Library B cell's objective function returns exactly
-(x^2 + y^2) on every pair of inputs (numbers embedded as exact rationals),
matching the spec's formula f(x, y) = -(x² + y²). -/
theorem objective_matches_spec_formula :
    ∀ x y : ℚ, objective_function x y = specObjectiveFormula x y :=
  fun _ _ => rfl

/-- C6: Over the bounds x, y in [-10, 10] the objective is at most 0, with
equality exactly at (0, 0), where the value 0 is attained; and the recorded
sample run made 12 evaluations with best value approximately -2.49 at
approximately (0.92, -1.28). -/
theorem objective_true_max :
    (∀ x y : ℚ, -10 ≤ x → x ≤ 10 → -10 ≤ y → y ≤ 10 →
        objective_function x y ≤ 0 ∧
          (objective_function x y = 0 ↔ x = 0 ∧ y = 0))
    ∧ objective_function 0 0 = 0
    ∧ displayedTargets.length = 12
    ∧ |recordedBest.target - (-2.49)| < 1 / 100
    ∧ |recordedBest.x - 0.92| < 1 / 200
    ∧ |recordedBest.y - (-1.28)| < 1 / 200 := by
  refine ⟨?_, by norm_num [objective_function], rfl, ?_, ?_, ?_⟩
  · intro x y _ _ _ _
    unfold objective_function
    constructor
    · nlinarith [sq_nonneg x, sq_nonneg y]
    · rw [neg_eq_zero]
      constructor
      · intro hxy
        have hx2 : x ^ 2 = 0 := by nlinarith [sq_nonneg x, sq_nonneg y]
        have hy2 : y ^ 2 = 0 := by nlinarith [sq_nonneg x, sq_nonneg y]
        exact ⟨sq_eq_zero_iff.mp hx2, sq_eq_zero_iff.mp hy2⟩
      · rintro ⟨hx, hy⟩
        rw [hx, hy]
        norm_num
  · rw [abs_sub_lt_iff]
    constructor <;> norm_num [recordedBest]
  · rw [abs_sub_lt_iff]
    constructor <;> norm_num [recordedBest]
  · rw [abs_sub_lt_iff]
    constructor <;> norm_num [recordedBest]

/-- Witness for C6: the objective at the claimed maximizer (0, 0), which
lies inside the bounds. -/
theorem objective_true_max_witness :
    objective_function 0 0 ≤ 0 :=
  (objective_true_max.1 0 0 (by decide) (by decide) (by decide) (by decide)).1

/-- C7: Every entry of the search space satisfies low <= high, in the
bayes_opt cell's pbounds and in the skopt checkpoint cell's Real
dimensions alike. -/
theorem bounds_low_le_high :
    (∀ e ∈ pbounds, e.2.1 ≤ e.2.2)
    ∧ (∀ e ∈ skoptRealBounds, e.2.1 ≤ e.2.2) := by
  constructor <;> decide

/-- Witness for C7: the x entry of pbounds and its low <= high fact. -/
theorem bounds_low_le_high_witness :
    (("x", ((-10 : ℚ), (10 : ℚ))) ∈ pbounds) ∧ (-10 : ℚ) ≤ 10 :=
  ⟨by decide, bounds_low_le_high.1 ("x", ((-10 : ℚ), (10 : ℚ))) (by decide)⟩

/-- C8: The objective function is pure: as a state-passing computation over
any program-state type, a sequence of evaluations returns exactly the
pointwise objective values - independent of state, of ordering and of the
other calls - and leaves the state unchanged; a single evaluation returns
the same value from any two states and does not modify the state. -/
theorem objective_pure :
    (∀ (S : Type) (s : S) (calls : List (ℚ × ℚ)),
        evalCalls calls s = (calls.map fun c => objective_function c.1 c.2, s))
    ∧ (∀ (S : Type) (s1 s2 : S) (x y : ℚ),
        (evalObjectiveSt s1 x y).1 = (evalObjectiveSt s2 x y).1)
    ∧ (∀ (S : Type) (s : S) (x y : ℚ), (evalObjectiveSt s x y).2 = s) := by
  refine ⟨?_, fun S s1 s2 x y => rfl, fun S s x y => rfl⟩
  intro S s calls
  induction calls generalizing s with
  | nil => rfl
  | cons c cs ih => simp [evalCalls, evalObjectiveSt, ih]

/-- C9: The skopt variant's objective computes sin x + cos y, which is a
different function from the bayes_opt variant's -(x^2 + y^2): at (0, 0) the
former is 1 and the latter is 0. -/
theorem skopt_objective_differs :
    (∀ x y : ℝ, objective_function_skopt x y = Real.sin x + Real.cos y)
    ∧ objective_function_skopt 0 0 ≠ ((objective_function 0 0 : ℚ) : ℝ) := by
  refine ⟨fun x y => rfl, ?_⟩
  have h1 : objective_function_skopt 0 0 = 1 := by
    simp [objective_function_skopt]
  have h2 : ((objective_function 0 0 : ℚ) : ℝ) = 0 := by
    norm_num [objective_function]
  rw [h1, h2]
  norm_num
